import Mathlib

/-!
Verification of the authentication/authorization core of the
Bento-Project-SCARS / ProjectSCARS central server, as a shallow embedding
in Lean 4.  Python classes become structures, keyword arguments with
`None` defaults become `Option` arguments, Python's `x or default`
idiom becomes an explicit truthiness helper, raised `HTTPException`s
become `Except` errors, and the ORM session becomes an explicit `Store`
value threaded through each route handler.
-/

namespace ProjectSCARS

/-! ## Python truthiness helpers

Python's `x or default` evaluates to `x` when `x` is truthy (non-`None`,
non-empty, non-zero, `True`) and to `default` otherwise.  The config
classes apply this idiom to every optional argument. -/

/-- Python `x or default` for an optional string argument: `None` and the
empty string are falsy. -/
def pyOrStr (v : Option String) (default : String) : String :=
  match v with
  | none => default
  | some s => if s = "" then default else s

/-- Python `x or default` for an optional integer argument: `None` and `0`
are falsy. -/
def pyOrInt (v : Option Int) (default : Int) : Int :=
  match v with
  | none => default
  | some n => if n = 0 then default else n

/-- Python `x or default` for an optional boolean argument: `None` and
`False` are falsy, so the result is `default` unless `v` is `some true`. -/
def pyOrBool (v : Option Bool) (default : Bool) : Bool :=
  match v with
  | none => default
  | some b => if b then b else default

/-- Python `x or default` for an optional list argument: `None` and the
empty list are falsy. -/
def pyOrList (v : Option (List String)) (default : List String) : List String :=
  match v with
  | none => default
  | some l => if l.isEmpty then default else l

/-! ## `internals/config_handler.py` -/

/-- The authentication configuration (`config_handler.Authentication`). -/
structure Authentication where
  signing_secret_key : String
  refresh_signing_secret_key : String
  encryption_secret_key : String
  signing_algorithm : String
  encryption_algorithm : String
  text_encoding : String
  access_token_expire_minutes : Int
  refresh_token_expire_minutes : Int
deriving Repr, DecidableEq

/-- Shallow embedding of `Authentication.__init__`
(`config_handler.py`, lines 134-174).  The constructor raises `ValueError`
exactly when one of the three secret keys is `None`; every other argument
falls back to its default through Python's `or` idiom.  A raised
`ValueError` is embedded as `Except.error` carrying the message. -/
def Authentication.init
    (signing_secret_key : Option String)
    (refresh_signing_secret_key : Option String)
    (encryption_secret_key : Option String)
    (signing_algorithm : Option String)
    (encryption_algorithm : Option String)
    (text_encoding : Option String)
    (access_token_expire_minutes : Option Int)
    (refresh_token_expire_minutes : Option Int) :
    Except String Authentication :=
  if signing_secret_key.isNone ∨ refresh_signing_secret_key.isNone ∨
      encryption_secret_key.isNone then
    .error "Signing or encryption secret key is empty in configuration file."
  else
    .ok {
      signing_secret_key := signing_secret_key.getD ""
      refresh_signing_secret_key := refresh_signing_secret_key.getD ""
      encryption_secret_key := encryption_secret_key.getD ""
      signing_algorithm := pyOrStr signing_algorithm "HS256"
      encryption_algorithm := pyOrStr encryption_algorithm "A256GCM"
      text_encoding := pyOrStr text_encoding "utf-8"
      access_token_expire_minutes := pyOrInt access_token_expire_minutes 30
      refresh_token_expire_minutes := pyOrInt refresh_token_expire_minutes 10080 }

/-- The placeholder value used for unset secret keys in the shipped sample
configuration, as named by `tests/test_confighandler.py` (`DEFAULT_VALUE`). -/
def placeholderSecretKey : String := "UPDATE_THIS_VALUE"

/-- The 64-hex-character signing key that the test suite treats as valid
(`tests/test_confighandler.py`, `VALID_SIGNING_KEY`). -/
def validSigningKey : String :=
  "b5eeca9520e2ada4ad96e1981d5c8f5515685201bfc2a19ad1fbee12ef8ba5d2"

/-- The 64-hex-character refresh signing key that the test suite treats as
valid (`VALID_REFRESH_SIGNING_KEY`). -/
def validRefreshSigningKey : String :=
  "cc20b62bb11859aa2b4140fc1641f11659bdbe8860faa8c9629be006d165a26a"

/-- The 32-hex-character encryption key that the test suite treats as valid
(`VALID_ENCRYPTION_KEY`). -/
def validEncryptionKey : String := "74969957b5a005133b3f1ab7dbbcedcf"

/-- The security (CORS) configuration (`config_handler.Security`). -/
structure Security where
  allow_origins : List String
  allow_credentials : Bool
  allow_methods : List String
  allow_headers : List String
deriving Repr, DecidableEq

/-- Shallow embedding of `Security.__init__` (`config_handler.py`,
lines 178-197).  Every field is filled through Python's `value or default`
idiom, so a falsy explicit argument is replaced by its default. -/
def Security.init
    (allow_origins : Option (List String))
    (allow_credentials : Option Bool)
    (allow_methods : Option (List String))
    (allow_headers : Option (List String)) : Security :=
  { allow_origins := pyOrList allow_origins ["*"]
    allow_credentials := pyOrBool allow_credentials true
    allow_methods := pyOrList allow_methods ["*"]
    allow_headers := pyOrList allow_headers ["*"] }

/-! ## Data model

The SQLModel table classes (`internals/models/user.py`, `role.py`) are not
under `src/`; the structures below are modelled from the spec's data model
(section 3) restricted to the fields that the source files under `src/`
actually read or write. -/

/-- Modelled from the spec: the `User` identity record (spec section 3) —
id, username, password hash, role id, email, MFA secret/verified/nonce
fields, per-provider OAuth linkage ids, and last-login metadata, exactly
the fields used by the route handlers and `user_handler.py` under `src/`.
The full table class lives in `internals/models/user.py`, which is not
under `src/`. -/
structure User where
  id : String
  username : String
  password : String
  roleId : Nat
  email : Option String
  otpSecret : Option String
  otpVerified : Bool
  otpNonce : Option String
  otpNonceExpires : Option Nat
  oauthLinkedGoogleId : Option String
  oauthLinkedMicrosoftId : Option String
  oauthLinkedFacebookId : Option String
  lastLoggedInTime : Option Nat
  lastLoggedInIp : Option String
deriving Repr, DecidableEq

/-- Modelled from the spec: the `Role` record (spec section 3) — id and its
set of permission strings, the fields the Permission Gate reads.  The table
class lives in `internals/models/role.py`, which is not under `src/`. -/
structure Role where
  id : Nat
  permissions : List String
deriving Repr, DecidableEq

/-- The persistence collaborator: the users and roles visible through the
ORM session (spec section 6, "Persistence collaborator"). -/
structure Store where
  users : List User
  roles : List Role
deriving Repr, DecidableEq

/-- Embedding of `session.get(User, uid)`: fetch a user row by primary
key. -/
def sessionGetUser (s : Store) (uid : String) : Option User :=
  s.users.find? (fun u => u.id == uid)

/-- Embedding of `session.get(Role, rid)`: fetch a role row by primary
key. -/
def sessionGetRole (s : Store) (rid : Nat) : Option Role :=
  s.roles.find? (fun r => r.id == rid)

/-- Embedding of
`session.exec(select(User).where(User.username == name)).first()`. -/
def findUserByUsername (s : Store) (name : String) : Option User :=
  s.users.find? (fun u => u.username == name)

/-- Replace the row of the user whose primary key is `uid` by applying `f`
to it; the embedding of mutating a fetched ORM object and committing. -/
def storeUpdateUser (s : Store) (uid : String) (f : User → User) : Store :=
  { s with users := s.users.map (fun u => if u.id == uid then f u else u) }

/-- Append a freshly inserted user row (`session.add` + `session.commit`). -/
def storeInsertUser (s : Store) (u : User) : Store :=
  { s with users := s.users ++ [u] }

/-! ## Tokens (`internals/auth_handler.py`, `internals/models/token.py`)

`auth_handler.py` is not under `src/`, so the token codec is modelled from
the spec (section 4.2): a token encodes subject id, issued-at, expiry,
kind (access vs refresh) and a random unique id, and is symmetrically
signed; verification fails closed with `expired`, `bad signature`,
`malformed` or `wrong kind`. -/

/-- The kind of a bearer token: short-lived access or longer-lived
refresh (spec section 3). -/
inductive TokenKind where
  | access
  | refresh
deriving Repr, DecidableEq

/-- Modelled from the spec: the claims a token encodes (spec section 4.2) —
subject id, issued-at, expiry, kind, and a random unique id. -/
structure TokenPayload where
  sub : String
  iat : Nat
  exp : Nat
  kind : TokenKind
  jti : String
deriving Repr, DecidableEq

/-- Modelled from the spec: a presented bearer token as the verifier sees
it — either structurally malformed, or a decoded payload together with
whether its symmetric signature checks out against the server's key. -/
inductive EncodedToken where
  | malformed (raw : String)
  | signed (payload : TokenPayload) (goodSignature : Bool)
deriving Repr, DecidableEq

/-- The error taxonomy of token verification (spec sections 4.2 and 7). -/
inductive TokenError where
  | tokenMalformed
  | badSignature
  | tokenExpired
  | tokenWrongKind
deriving Repr, DecidableEq

/-- Modelled from the spec: `verify(token) -> Claims | Error`
(`verify_access_token` in `internals/auth_handler.py`, not under `src/`).
Verification fails closed with `malformed`, `bad signature`, `expired` or
`wrong kind`; the kind field is checked against the kind the call site
requires on every verification (spec sections 4.2 and 8). -/
def verify_token (t : EncodedToken) (required : TokenKind) (now : Nat) :
    Except TokenError TokenPayload :=
  match t with
  | .malformed _ => .error .tokenMalformed
  | .signed p goodSignature =>
    if ¬ goodSignature then .error .badSignature
    else if p.kind ≠ required then .error .tokenWrongKind
    else if p.exp ≤ now then .error .tokenExpired
    else .ok p

/-- Modelled from the spec: `issue(user_id, ttl, kind) -> token`
(`create_access_token` in `internals/auth_handler.py`, not under `src/`).
The third positional argument of the Python function selects the refresh
kind, mirroring its call sites in `routers/auth_routes/__init__.py`. -/
def create_access_token (uid : String) (ttlMinutes : Nat) (now : Nat)
    (jti : String) (refresh : Bool) : EncodedToken :=
  .signed
    { sub := uid, iat := now, exp := now + ttlMinutes * 60
      kind := if refresh then .refresh else .access, jti := jti }
    true

/-- Modelled from the spec: the wire serialization of a token (spec
section 4.2, "signs and optionally encrypts token payloads"); any encoding
of a signed payload is a non-empty string. -/
def EncodedToken.serialize : EncodedToken → String
  | .malformed raw => raw
  | .signed p _ =>
    "jwt." ++ p.sub ++ "." ++ toString p.iat ++ "." ++ toString p.exp ++
      "." ++ (match p.kind with | .access => "access" | .refresh => "refresh") ++
      "." ++ p.jti

/-- The decoded token a route dependency receives
(`internals/models/token.py`, `DecodedJWTToken`; not under `src/`, modelled
from its uses `token.id` in the routers). -/
structure DecodedJWTToken where
  id : String
deriving Repr, DecidableEq

/-- The token response model (`internals/models/token.py`, `JWTToken`;
not under `src/`, modelled from its construction sites in
`routers/auth_routes/__init__.py`). -/
structure JWTToken where
  access_token : EncodedToken
  refresh_token : Option EncodedToken
  token_type : String
deriving Repr, DecidableEq

/-- Modelled from the spec: the Permission Gate
(`verify_user_permission` in `internals/auth_handler.py`, not under
`src/`).  Spec section 4.4: resolve the user's role id to its permission
set (static lookup against the seeded `Role` records) and check
membership. -/
def verify_user_permission (required : String) (s : Store)
    (token : DecodedJWTToken) : Bool :=
  match sessionGetUser s token.id with
  | none => false
  | some u =>
    match sessionGetRole s u.roleId with
    | none => false
    | some r => r.permissions.contains required

/-! ## `internals/user_handler.py` -/

/-- An `HTTPException` raised by a handler: HTTP status code plus
machine-readable detail string. -/
structure HTTPError where
  status_code : Nat
  detail : String
deriving Repr, DecidableEq

/-- Embedding of `user_handler.validate_username`: every character is
alphanumeric, an underscore or a hyphen, and the length is strictly
between 3 and 22. -/
def validate_username (username : String) : Bool :=
  username.toList.all (fun c => c.isAlphanum ∨ c = '_' ∨ c = '-') ∧
    username.length > 3 ∧ username.length < 22

/-- Embedding of `user_handler.validate_password`: at least 8 characters
with at least one digit, one lowercase letter and one uppercase letter. -/
def validate_password (password : String) : Bool :=
  password.length ≥ 8 ∧
    password.toList.any (fun c => c.isDigit) ∧
    password.toList.any (fun c => c.isLower) ∧
    password.toList.any (fun c => c.isUpper)

/-- Modelled from the spec: `crypt_ctx.hash` (the slow salted password
hash of spec section 4.1) lives in `internals/auth_handler.py`, which is
not under `src/`; the claims below never inspect hash contents. -/
def crypt_hash (plaintext : String) : String :=
  "pbkdf2-sha256-digest-of:" ++ plaintext

/-- The payload of a create-user request (`NewUserRequest` / `UserCreate`
in `internals/models/user.py`, not under `src/`; fields taken from their
uses in `user_handler.create_user` and the create route). -/
structure NewUserRequest where
  username : String
  password : String
  roleId : Nat
deriving Repr, DecidableEq

/-- The payload of an invite-user request (`UserInvite`; fields restricted
to those the invite route's checks read). -/
structure UserInvite where
  username : String
  email : String
  roleId : Nat
deriving Repr, DecidableEq

/-- Embedding of `user_handler.create_user` (lines 56-111): reject a
duplicate username with 409, an invalid username or password format with
400, and otherwise insert a fresh user row holding the hashed password.
`freshId` stands for the database-assigned primary key of the new row.
The returned store is the session state after the call: unchanged on every
raised exception. -/
def create_user (new_user : NewUserRequest) (s : Store) (freshId : String) :
    Except HTTPError User × Store :=
  if (findUserByUsername s new_user.username).isSome then
    (.error ⟨409, "Username already exists"⟩, s)
  else if ¬ validate_username new_user.username then
    (.error ⟨400, "Invalid username"⟩, s)
  else if ¬ validate_password new_user.password then
    (.error ⟨400, "Invalid password format"⟩, s)
  else
    let user : User :=
      { id := freshId
        username := new_user.username
        password := crypt_hash new_user.password
        roleId := new_user.roleId
        email := none, otpSecret := none, otpVerified := false
        otpNonce := none, otpNonceExpires := none, oauthLinkedGoogleId := none
        oauthLinkedMicrosoftId := none, oauthLinkedFacebookId := none
        lastLoggedInTime := none, lastLoggedInIp := none }
    (.ok user, storeInsertUser s user)

/-- Embedding of `acquired_user.sqlmodel_update(updated_user)`: every
field of the acquired row is overwritten from the update payload. -/
def sqlmodel_update (_acquired updated : User) : User := updated

/-- Embedding of `user_handler.update_user_info` (lines 114-147): reject
with 409 when any user row already carries the requested username, with
400 when the username is invalid, and otherwise overwrite the acquired
row and commit.  The returned store is the session state after the
call. -/
def update_user_info (acquired_user updated_user : User) (s : Store) :
    Except HTTPError User × Store :=
  if (findUserByUsername s updated_user.username).isSome then
    (.error ⟨409, "Username already exists"⟩, s)
  else if ¬ validate_username updated_user.username then
    (.error ⟨400, "Invalid username"⟩, s)
  else
    let merged := sqlmodel_update acquired_user updated_user
    (.ok merged, storeUpdateUser s acquired_user.id (fun _ => merged))

/-! ## `routers/auth_routes/__init__.py` -/

/-- Embedding of the `/v1/auth/create` route `create_new_user`
(lines 57-117): permission check, requester lookup, role-existence check,
role-rank check, then `create_user`.  Each raised `HTTPException` leaves
the session state unchanged. -/
def create_new_user (new_user : NewUserRequest) (token : DecodedJWTToken)
    (s : Store) (freshId : String) : Except HTTPError User × Store :=
  if ¬ verify_user_permission "users:create" s token then
    (.error ⟨403, "You do not have permission to create a user."⟩, s)
  else
    match sessionGetUser s token.id with
    | none => (.error ⟨403, "User not found."⟩, s)
    | some user =>
      match sessionGetRole s new_user.roleId with
      | none => (.error ⟨400, "Invalid role ID provided."⟩, s)
      | some _ =>
        if new_user.roleId < user.roleId then
          (.error ⟨403, "You do not have permission to create a user with this role."⟩, s)
        else
          create_user new_user s freshId

/-- Embedding of the `/v1/auth/invite` route `invite_user`
(lines 262-370): the same permission, requester, role-existence and
role-rank checks as the create route, then `create_user` on a generated
password.  `genpass` is the random password after the route's regeneration
loop, which exits only once `validate_password genpass` holds. -/
def invite_user (new_user : UserInvite) (token : DecodedJWTToken)
    (s : Store) (genpass : String) (freshId : String) :
    Except HTTPError User × Store :=
  if ¬ verify_user_permission "users:create" s token then
    (.error ⟨403, "You do not have permission to invite a user."⟩, s)
  else
    match sessionGetUser s token.id with
    | none => (.error ⟨403, "User not found."⟩, s)
    | some user =>
      match sessionGetRole s new_user.roleId with
      | none => (.error ⟨400, "Invalid role ID provided."⟩, s)
      | some _ =>
        if new_user.roleId < user.roleId then
          (.error ⟨403, "You do not have permission to invite a user with this role."⟩, s)
        else
          create_user
            { username := new_user.username, password := genpass
              roleId := new_user.roleId } s freshId

/-- The body of a successful `/v1/auth/login` response: either a token
pair or an MFA one-time-password challenge carrying a nonce. -/
inductive LoginResponse where
  | tokens (t : JWTToken)
  | otpChallenge (message : String) (otp_nonce : String)
deriving Repr, DecidableEq

/-- Embedding of the `/v1/auth/login` route `request_access_token`
(lines 120-207).  `authResult` is the outcome of `authenticate_user`
(the Credential Verifier of `internals/auth_handler.py`, an external
collaborator not under `src/`): a `(status, detail)` failure or the
authenticated user.  With MFA configured and verified the route stores a
fresh nonce and returns a challenge; otherwise it records the login
metadata and issues an access token, plus a refresh token exactly when
`remember_me` is set.  `now` is the current time, `otpNonceValue`,
`jtiAccess` and `jtiRefresh` are the fresh random values the route draws,
and the configured token lifetimes are passed in minutes. -/
def request_access_token (authResult : Except (Nat × String) User)
    (remember_me : Bool) (client_ip : Option String) (now : Nat)
    (otpNonceValue jtiAccess jtiRefresh : String)
    (cfg_access_minutes cfg_refresh_minutes cfg_otp_nonce_minutes : Nat)
    (s : Store) : Except HTTPError LoginResponse × Store :=
  match authResult with
  | .error e => (.error ⟨e.1, e.2⟩, s)
  | .ok user =>
    if user.otpSecret.isSome ∧ user.otpVerified then
      (.ok (.otpChallenge
          "MFA OTP is enabled. Please provide your OTP to continue."
          otpNonceValue),
        storeUpdateUser s user.id (fun u =>
          { u with otpNonce := some otpNonceValue
                   otpNonceExpires := some (now + cfg_otp_nonce_minutes * 60) }))
    else
      let access := create_access_token user.id cfg_access_minutes now jtiAccess false
      let refreshTok :=
        if remember_me then
          some (create_access_token user.id cfg_refresh_minutes now jtiRefresh true)
        else none
      (.ok (.tokens
          { access_token := access, refresh_token := refreshTok
            token_type := "bearer" }),
        storeUpdateUser s user.id (fun u =>
          { u with lastLoggedInTime := some now, lastLoggedInIp := client_ip }))

/-- Embedding of the `/v1/auth/refresh` route `refresh_access_token`
(lines 210-259): verify the presented refresh token, re-check that its
subject still exists in the store, and only then issue a fresh access
token.  Both a failed verification and the inner 401 for a missing user
are caught by the route's `except HTTPException` clause and re-raised as
the generic 401. -/
def refresh_access_token (refresh_token : EncodedToken) (s : Store)
    (now : Nat) (cfg_access_minutes : Nat) (jti : String) :
    Except HTTPError JWTToken :=
  match verify_token refresh_token .refresh now with
  | .error _ => .error ⟨401, "Invalid or expired refresh token."⟩
  | .ok decoded =>
    match sessionGetUser s decoded.sub with
    | none => .error ⟨401, "Invalid or expired refresh token."⟩
    | some user =>
      .ok { access_token := create_access_token user.id cfg_access_minutes now jti false
            refresh_token := some refresh_token
            token_type := "bearer" }

/-! ## `routers/auth_routes/oauth.py` — unlink endpoints -/

/-- Embedding of the `/oauth/google/unlink` route `oauth_unlink_google`
(lines 125-150): 501 when the adapter is unconfigured, 404 when the
token's subject has no user row, and otherwise clear exactly the
`oauthLinkedGoogleId` field of that row and commit. -/
def oauth_unlink_google (googleConfigured : Bool) (token : DecodedJWTToken)
    (s : Store) : Except HTTPError String × Store :=
  if ¬ googleConfigured then
    (.error ⟨501, "Google OAuth is not configured."⟩, s)
  else
    match sessionGetUser s token.id with
    | none => (.error ⟨404, "User not found."⟩, s)
    | some _ =>
      (.ok "Google account unlinked successfully.",
        storeUpdateUser s token.id (fun u => { u with oauthLinkedGoogleId := none }))

/-- Embedding of the `/oauth/facebook/unlink` route `oauth_unlink_facebook`
(lines 339-364), identical in shape to the Google unlink route but
clearing `oauthLinkedFacebookId`. -/
def oauth_unlink_facebook (facebookConfigured : Bool)
    (token : DecodedJWTToken) (s : Store) : Except HTTPError String × Store :=
  if ¬ facebookConfigured then
    (.error ⟨501, "Facebook OAuth is not configured."⟩, s)
  else
    match sessionGetUser s token.id with
    | none => (.error ⟨404, "User not found."⟩, s)
    | some _ =>
      (.ok "Facebook account unlinked successfully.",
        storeUpdateUser s token.id (fun u => { u with oauthLinkedFacebookId := none }))

/-! ## `internals/adapters/oauth.py`

The adapters call `httpx.post` / `httpx.get` with no surrounding
`try`/`except` and never read `response.status_code`.  The HTTP layer is
embedded as an oracle mapping each request to an outcome: a timeout (the
`httpx` call raises), or a response with a status code and either a JSON
object body or a non-JSON body (on which `response.json()` raises).  An
uncaught Python exception reaching the adapter's caller is embedded as
`Except.error` carrying the exception. -/

/-- A provider HTTP request: the endpoint URL together with its form
data, query string or headers flattened to key/value pairs. -/
structure HttpRequest where
  url : String
  payload : List (String × String)
deriving Repr, DecidableEq

/-- The outcome the HTTP layer produces for one request. -/
inductive HttpOutcome where
  | timeout
  | response (status : Nat) (jsonBody : Option (List (String × String)))
deriving Repr, DecidableEq

/-- The behaviour of the identity provider's HTTP endpoints during one
exchange. -/
def HttpWorld : Type := HttpRequest → HttpOutcome

/-- A Python exception escaping the adapter uncaught. -/
inductive PyException where
  | httpxTimeout
  | jsonDecodeError
deriving Repr, DecidableEq

/-- Embedding of `response.json().get(key)` on a parsed JSON object. -/
def jsonGet (body : List (String × String)) (key : String) : Option String :=
  (body.find? (fun kv => kv.1 == key)).map (fun kv => kv.2)

/-- Per-provider OAuth client configuration
(`internals/adapters/config.py`, not under `src/`; fields taken from their
uses in `adapters/oauth.py`). -/
structure OAuthAdapterConfig where
  client_id : String
  client_secret : String
  redirect_uri : String
deriving Repr, DecidableEq

/-- Python f-string interpolation of a possibly-`None` value: `None`
interpolates as the literal string `None`. -/
def pyStr (v : Option String) : String :=
  match v with
  | none => "None"
  | some s => s

/-- The token-endpoint POST the Google adapter issues: the form data
built at `adapters/oauth.py`, lines 34-41. -/
def googleTokenRequest (config : OAuthAdapterConfig) (code : String) :
    HttpRequest :=
  ⟨"https://accounts.google.com/o/oauth2/token",
    [("code", code), ("client_id", config.client_id),
      ("client_secret", config.client_secret),
      ("redirect_uri", config.redirect_uri),
      ("grant_type", "authorization_code")]⟩

/-- The userinfo GET the Google adapter issues (lines 43-46), carrying the
bearer token interpolated into the Authorization header. -/
def googleUserinfoRequest (bearer : Option String) : HttpRequest :=
  ⟨"https://www.googleapis.com/oauth2/v1/userinfo",
    [("Authorization", "Bearer " ++ pyStr bearer)]⟩

/-- Embedding of `GoogleOAuthAdapter.exchange_code_for_token`
(`adapters/oauth.py`, lines 31-47): POST the code to the token endpoint,
read `access_token` out of the JSON body with no status check, GET the
userinfo endpoint with that bearer token, and return its JSON body.  A
timeout or a non-JSON body raises, and the exception propagates: there is
no `try`/`except` in the function.  When the token response carries no
`access_token`, Python interpolates the literal string `None` into the
Authorization header and the call still proceeds. -/
def GoogleOAuthAdapter.exchange_code_for_token (world : HttpWorld)
    (config : OAuthAdapterConfig) (code : String) :
    Except PyException (List (String × String)) :=
  match world (googleTokenRequest config code) with
  | .timeout => .error .httpxTimeout
  | .response _ none => .error .jsonDecodeError
  | .response _ (some body) =>
    match world (googleUserinfoRequest (jsonGet body "access_token")) with
    | .timeout => .error .httpxTimeout
    | .response _ none => .error .jsonDecodeError
    | .response _ (some profile) => .ok profile

/-- The token-endpoint POST the Facebook adapter issues (lines 62-68). -/
def facebookTokenRequest (config : OAuthAdapterConfig) (code : String) :
    HttpRequest :=
  ⟨"https://graph.facebook.com/v21.0/oauth/access_token",
    [("code", code), ("client_id", config.client_id),
      ("client_secret", config.client_secret),
      ("redirect_uri", config.redirect_uri)]⟩

/-- The profile GET the Facebook adapter issues (lines 70-72), carrying
the access token as a query parameter. -/
def facebookProfileRequest (bearer : Option String) : HttpRequest :=
  ⟨"https://graph.facebook.com/me",
    [("fields", "id,name,email"), ("access_token", pyStr bearer)]⟩

/-- Embedding of `FacebookOAuthAdapter.exchange_code_for_token`
(`adapters/oauth.py`, lines 59-73): the same uncheck-and-propagate shape
as the Google adapter, with Facebook's endpoints. -/
def FacebookOAuthAdapter.exchange_code_for_token (world : HttpWorld)
    (config : OAuthAdapterConfig) (code : String) :
    Except PyException (List (String × String)) :=
  match world (facebookTokenRequest config code) with
  | .timeout => .error .httpxTimeout
  | .response _ none => .error .jsonDecodeError
  | .response _ (some body) =>
    match world (facebookProfileRequest (jsonGet body "access_token")) with
    | .timeout => .error .httpxTimeout
    | .response _ none => .error .jsonDecodeError
    | .response _ (some profile) => .ok profile

/-- The user row that `create_user` inserts for a given request and
database-assigned fresh id (the `User(...)` construction at
`user_handler.py`, lines 101-105). -/
def createdUserRow (nu : NewUserRequest) (freshId : String) : User :=
  { id := freshId, username := nu.username, password := crypt_hash nu.password,
    roleId := nu.roleId, email := none, otpSecret := none, otpVerified := false,
    otpNonce := none, otpNonceExpires := none, oauthLinkedGoogleId := none,
    oauthLinkedMicrosoftId := none, oauthLinkedFacebookId := none,
    lastLoggedInTime := none, lastLoggedInIp := none }

/-! ## Concrete fixtures used by witnesses and counterexamples -/

/-- A seeded administrator role of rank 1 holding the user-management
permission. -/
def roleSuperintendent : Role := ⟨1, ["users:create", "roles:global:read"]⟩

/-- A seeded administrator role of rank 2 holding the user-management
permission. -/
def roleAdmin : Role := ⟨2, ["users:create"]⟩

/-- A seeded unprivileged role of rank 4. -/
def roleCanteenManager : Role := ⟨4, []⟩

/-- A requester fixture: an administrator of role rank 2 with a linked
Google account. -/
def userAlice : User :=
  { id := "u1", username := "alice", password := "hash-a", roleId := 2
    email := some "alice@example.com", otpSecret := none, otpVerified := false
    otpNonce := none, otpNonceExpires := none
    oauthLinkedGoogleId := some "google-123"
    oauthLinkedMicrosoftId := none, oauthLinkedFacebookId := some "fb-456"
    lastLoggedInTime := none, lastLoggedInIp := none }

/-- A second user fixture of role rank 4, whose username is already
taken. -/
def userBob : User :=
  { id := "u2", username := "bobby", password := "hash-b", roleId := 4
    email := none, otpSecret := none, otpVerified := false
    otpNonce := none, otpNonceExpires := none, oauthLinkedGoogleId := none
    oauthLinkedMicrosoftId := none, oauthLinkedFacebookId := none
    lastLoggedInTime := none, lastLoggedInIp := none }

/-- The store fixture holding both user fixtures and the three role
fixtures. -/
def storeEx : Store :=
  ⟨[userAlice, userBob], [roleSuperintendent, roleAdmin, roleCanteenManager]⟩

/-- The decoded access token of the requester fixture. -/
def tokenAlice : DecodedJWTToken := ⟨"u1"⟩

/-! ## Claims -/

/-- C10: for every boolean `b`, constructing the `Security` configuration
with `allow_credentials = b` yields `allow_credentials = True` — the
Python `value or default` idiom silently replaces an explicit `False`
with the default `True`, so `allow_credentials` can never be configured
as `False`. -/
theorem security_allow_credentials_always_true (b : Bool)
    (origins methods headers : Option (List String)) :
    (Security.init origins (some b) methods headers).allow_credentials = true := by
  cases b <;> rfl

/-- C1 (code bug): `Authentication.__init__` raises `ValueError` only when
a secret key is `None`.  It accepts all three keys equal to the
`UPDATE_THIS_VALUE` placeholder, an empty key, a wrong-length key, and a
signing key equal to the encryption key — every one of which the
repository's own tests (`tests/test_confighandler.py`) and the spec
require to fail closed with `ValueError`.  Only the `None` case errors. -/
theorem authentication_init_accepts_placeholder_and_malformed_keys :
    (Authentication.init (some placeholderSecretKey) (some placeholderSecretKey)
      (some placeholderSecretKey) none none none none none).isOk = true ∧
    (Authentication.init (some "") (some validRefreshSigningKey)
      (some validEncryptionKey) none none none none none).isOk = true ∧
    (Authentication.init (some (validSigningKey ++ "1")) (some validRefreshSigningKey)
      (some validEncryptionKey) none none none none none).isOk = true ∧
    (Authentication.init (some validSigningKey) (some validRefreshSigningKey)
      (some validSigningKey) none none none none none).isOk = true ∧
    (Authentication.init none (some validRefreshSigningKey)
      (some validEncryptionKey) none none none none none).isOk = false :=
  ⟨rfl, rfl, rfl, rfl, rfl⟩

/-- C2: the token kind is checked on every verification.  A refresh-kind
token presented where an access token is required is never accepted, and
when its signature is valid the failure is precisely `TokenWrongKind`;
symmetrically, an access-kind token presented where a refresh token is
required is never accepted.  (`verify_token` models `verify_access_token`
of `internals/auth_handler.py`, which is not under `src/`, from spec
sections 4.2 and 8.) -/
theorem token_kind_checked_on_every_verification
    (p : TokenPayload) (goodSig : Bool) (now : Nat) :
    (p.kind = .refresh →
      (verify_token (.signed p goodSig) .access now).isOk = false ∧
      (goodSig = true →
        verify_token (.signed p goodSig) .access now = .error .tokenWrongKind)) ∧
    (p.kind = .access →
      (verify_token (.signed p goodSig) .refresh now).isOk = false ∧
      (goodSig = true →
        verify_token (.signed p goodSig) .refresh now = .error .tokenWrongKind)) := by
  constructor
  · intro hk
    constructor
    · cases goodSig <;> simp [verify_token, hk, Except.isOk, Except.toBool]
    · intro hs
      subst hs
      simp [verify_token, hk]
  · intro hk
    constructor
    · cases goodSig <;> simp [verify_token, hk, Except.isOk, Except.toBool]
    · intro hs
      subst hs
      simp [verify_token, hk]

/-- Witness for C2 at a concrete payload: a validly signed, unexpired
refresh token fails the access check with `TokenWrongKind`, and the
symmetric presentation also fails with `TokenWrongKind`. -/
theorem token_kind_checked_witness :
    verify_token (.signed ⟨"u1", 0, 100, .refresh, "j1"⟩ true) .access 0 =
      .error .tokenWrongKind ∧
    verify_token (.signed ⟨"u1", 0, 100, .access, "j2"⟩ true) .refresh 0 =
      .error .tokenWrongKind :=
  ⟨((token_kind_checked_on_every_verification ⟨"u1", 0, 100, .refresh, "j1"⟩
      true 0).1 rfl).2 rfl,
   ((token_kind_checked_on_every_verification ⟨"u1", 0, 100, .access, "j2"⟩
      true 0).2 rfl).2 rfl⟩

/-- C4: once the presented refresh token verifies, the refresh route
re-checks that the token's subject still denotes an existing user row; if
the user no longer exists the request fails with 401 and no access token
is issued, so deleting a user implicitly invalidates all of that user's
outstanding refresh tokens. -/
theorem refresh_fails_unauthorized_when_user_deleted
    (tok : EncodedToken) (s : Store) (now cfgA : Nat) (jti : String)
    (decoded : TokenPayload)
    (hver : verify_token tok .refresh now = .ok decoded)
    (hmiss : sessionGetUser s decoded.sub = none) :
    refresh_access_token tok s now cfgA jti =
      .error ⟨401, "Invalid or expired refresh token."⟩ := by
  simp [refresh_access_token, hver, hmiss]

/-- Witness for C4: a validly signed, unexpired refresh token for the
deleted subject `ghost` is rejected with 401 against the store fixture. -/
theorem refresh_fails_unauthorized_when_user_deleted_witness :
    verify_token (.signed ⟨"ghost", 0, 1000, .refresh, "jid"⟩ true) .refresh 5 =
      .ok ⟨"ghost", 0, 1000, .refresh, "jid"⟩ ∧
    sessionGetUser storeEx "ghost" = none ∧
    refresh_access_token (.signed ⟨"ghost", 0, 1000, .refresh, "jid"⟩ true)
      storeEx 5 30 "k" = .error ⟨401, "Invalid or expired refresh token."⟩ :=
  ⟨rfl, by decide,
    refresh_fails_unauthorized_when_user_deleted _ _ _ _ _
      ⟨"ghost", 0, 1000, .refresh, "jid"⟩ rfl (by decide)⟩

/-- Helper: the serialization of a signed token payload has positive
length. -/
theorem serialize_signed_length (p : TokenPayload) (sig : Bool) :
    0 < ((EncodedToken.signed p sig).serialize).length := by
  simp only [EncodedToken.serialize, String.length_append]
  have h4 : "jwt.".length = 4 := rfl
  omega

/-- Helper: the serialization of a signed token payload is a non-empty
string. -/
theorem serialize_signed_ne_empty (p : TokenPayload) (sig : Bool) :
    (EncodedToken.signed p sig).serialize ≠ "" := by
  intro h
  have hl := serialize_signed_length p sig
  rw [h] at hl
  exact absurd hl (by decide)

/-- C6: a login with correct credentials by a user with no MFA configured
returns a non-empty access token, and a refresh token exactly when the
remember-me option was requested.  (`authenticate_user` and the token
issuer live in `internals/auth_handler.py`, not under `src/`; the
authentication outcome is the route parameter `Except.ok user` and the
issuer is modelled from spec section 4.2.) -/
theorem login_issues_refresh_token_iff_remember_me
    (user : User) (remember_me : Bool) (ip : Option String) (now : Nat)
    (nonce ja jr : String) (ca cr co : Nat) (s : Store)
    (hNoMFA : ¬ (user.otpSecret.isSome = true ∧ user.otpVerified = true)) :
    ∃ t : JWTToken,
      (request_access_token (.ok user) remember_me ip now nonce ja jr
        ca cr co s).1 = .ok (.tokens t) ∧
      t.access_token.serialize ≠ "" ∧
      t.refresh_token.isSome = remember_me := by
  refine ⟨⟨create_access_token user.id ca now ja false,
    if remember_me then some (create_access_token user.id cr now jr true)
    else none, "bearer"⟩, ?_, ?_, ?_⟩
  · simp [request_access_token, hNoMFA]
  · exact serialize_signed_ne_empty _ _
  · cases remember_me <;> simp

/-- Witness for C6 at a concrete user with no MFA: with remember-me
requested the response carries a non-empty access token and a refresh
token. -/
theorem login_issues_refresh_token_iff_remember_me_witness :
    (¬ (userBob.otpSecret.isSome = true ∧ userBob.otpVerified = true)) ∧
    ∃ t : JWTToken,
      (request_access_token (.ok userBob) true (some "127.0.0.1") 100
        "n" "ja" "jr" 30 10080 5 storeEx).1 = .ok (.tokens t) ∧
      t.access_token.serialize ≠ "" ∧
      t.refresh_token.isSome = true :=
  ⟨by decide,
    login_issues_refresh_token_iff_remember_me userBob true (some "127.0.0.1")
      100 "n" "ja" "jr" 30 10080 5 storeEx (by decide)⟩

/-- Helper: a list on which some member satisfies the predicate has a
successful `find?`. -/
theorem find?_isSome_of_mem {α : Type} (l : List α) (p : α → Bool) (x : α)
    (hx : x ∈ l) (hp : p x = true) : (l.find? p).isSome := by
  induction l with
  | nil => cases hx
  | cons a as ih =>
    simp only [List.find?]
    rcases List.mem_cons.mp hx with h | h
    · subst h
      simp [hp]
    · cases hpa : p a
      · simpa using ih h
      · simp

/-- C9: `update_user_info` rejects with 409 Conflict, leaving the store
unchanged, whenever any user row already carries the requested username —
including the target user's own current, unchanged username — so an
update that keeps the username the same can never succeed through this
function. -/
theorem update_user_info_conflicts_on_any_existing_username
    (acquired_user updated_user : User) (s : Store) :
    ((findUserByUsername s updated_user.username).isSome = true →
      update_user_info acquired_user updated_user s =
        (.error ⟨409, "Username already exists"⟩, s)) ∧
    (acquired_user ∈ s.users → updated_user.username = acquired_user.username →
      update_user_info acquired_user updated_user s =
        (.error ⟨409, "Username already exists"⟩, s)) := by
  constructor
  · intro h
    simp [update_user_info, h]
  · intro hmem heq
    have h : (findUserByUsername s updated_user.username).isSome := by
      apply find?_isSome_of_mem _ _ acquired_user hmem
      simp [heq]
    simp [update_user_info, h]

/-- Witness for C9: updating the second user fixture while keeping its
username unchanged (only the email differs) is rejected with 409 and the
store is untouched. -/
theorem update_user_info_conflicts_witness :
    update_user_info userBob { userBob with email := some "bob@example.com" }
      storeEx = (.error ⟨409, "Username already exists"⟩, storeEx) :=
  (update_user_info_conflicts_on_any_existing_username userBob
    { userBob with email := some "bob@example.com" } storeEx).2 (by decide) rfl

/-- C8: for an existing user the unlink endpoints clear exactly that
provider's linkage id field — every row with a different primary key is
unchanged, and the target row keeps every other field (username, password
hash, role id, the other providers' linkage ids) — while for a
non-existent user they fail with 404 and change no state.  The per-index
equation on `get?` expresses the frame: each row is mapped to itself
unless its id matches, in which case only the provider field becomes
`none`. -/
theorem unlink_clears_exactly_the_provider_field
    (token : DecodedJWTToken) (s : Store) :
    (∀ user, sessionGetUser s token.id = some user →
      (oauth_unlink_google true token s).1 =
        .ok "Google account unlinked successfully." ∧
      (oauth_unlink_google true token s).2.roles = s.roles ∧
      (∀ i : Nat, (oauth_unlink_google true token s).2.users.get? i =
        (s.users.get? i).map (fun u =>
          if u.id = token.id then { u with oauthLinkedGoogleId := none }
          else u)) ∧
      (oauth_unlink_facebook true token s).1 =
        .ok "Facebook account unlinked successfully." ∧
      (oauth_unlink_facebook true token s).2.roles = s.roles ∧
      (∀ i : Nat, (oauth_unlink_facebook true token s).2.users.get? i =
        (s.users.get? i).map (fun u =>
          if u.id = token.id then { u with oauthLinkedFacebookId := none }
          else u))) ∧
    (sessionGetUser s token.id = none →
      oauth_unlink_google true token s = (.error ⟨404, "User not found."⟩, s) ∧
      oauth_unlink_facebook true token s = (.error ⟨404, "User not found."⟩, s)) := by
  constructor
  · intro user hu
    refine ⟨?_, ?_, ?_, ?_, ?_, ?_⟩
    · simp [oauth_unlink_google, hu]
    · simp [oauth_unlink_google, hu, storeUpdateUser]
    · intro i
      simp [oauth_unlink_google, hu, storeUpdateUser, List.get?_eq_getElem?, List.getElem?_map]
    · simp [oauth_unlink_facebook, hu]
    · simp [oauth_unlink_facebook, hu, storeUpdateUser]
    · intro i
      simp [oauth_unlink_facebook, hu, storeUpdateUser, List.get?_eq_getElem?, List.getElem?_map]
  · intro hnone
    constructor
    · simp [oauth_unlink_google, hnone]
    · simp [oauth_unlink_facebook, hnone]

/-- Witness for C8 on the fixtures: unlinking Google for the first user
clears only its Google linkage (row 0 keeps all other fields, row 1 is
untouched), and unlinking for an unknown subject fails with 404 leaving
the store unchanged. -/
theorem unlink_clears_exactly_the_provider_field_witness :
    (oauth_unlink_google true tokenAlice storeEx).1 =
      .ok "Google account unlinked successfully." ∧
    (oauth_unlink_google true tokenAlice storeEx).2.users.get? 0 =
      some { userAlice with oauthLinkedGoogleId := none } ∧
    (oauth_unlink_google true tokenAlice storeEx).2.users.get? 1 =
      some userBob ∧
    oauth_unlink_google true ⟨"nobody"⟩ storeEx =
      (.error ⟨404, "User not found."⟩, storeEx) := by
  have h := (unlink_clears_exactly_the_provider_field tokenAlice storeEx).1
    userAlice rfl
  refine ⟨h.1, ?_, ?_, ?_⟩
  · rw [h.2.2.1 0]
    rfl
  · rw [h.2.2.1 1]
    rfl
  · exact ((unlink_clears_exactly_the_provider_field ⟨"nobody"⟩ storeEx).2
      (by decide)).1

/-- Helper: whenever `create_user` raises, the session state is
unchanged. -/
theorem create_user_error_store_unchanged (nu : NewUserRequest) (s : Store)
    (freshId : String) (e : HTTPError)
    (h : (create_user nu s freshId).1 = .error e) :
    (create_user nu s freshId).2 = s := by
  unfold create_user at h ⊢
  split
  · rfl
  · split
    · rfl
    · split
      · rfl
      · simp_all

/-- C5: the create-user route performs its checks in source order —
permission, then role existence, then role rank — short-circuiting with
the corresponding error, reaching creation only when every check passes;
and on every failure, including a failure inside `create_user` itself,
the returned session state equals the input state (no partial
mutation). -/
theorem create_route_checks_in_order_with_no_partial_mutation
    (new_user : NewUserRequest) (token : DecodedJWTToken) (s : Store)
    (freshId : String) :
    (verify_user_permission "users:create" s token = false →
      create_new_user new_user token s freshId =
        (.error ⟨403, "You do not have permission to create a user."⟩, s)) ∧
    (∀ requester, verify_user_permission "users:create" s token = true →
      sessionGetUser s token.id = some requester →
      sessionGetRole s new_user.roleId = none →
      create_new_user new_user token s freshId =
        (.error ⟨400, "Invalid role ID provided."⟩, s)) ∧
    (∀ requester role, verify_user_permission "users:create" s token = true →
      sessionGetUser s token.id = some requester →
      sessionGetRole s new_user.roleId = some role →
      new_user.roleId < requester.roleId →
      create_new_user new_user token s freshId =
        (.error ⟨403, "You do not have permission to create a user with this role."⟩, s)) ∧
    (∀ requester role, verify_user_permission "users:create" s token = true →
      sessionGetUser s token.id = some requester →
      sessionGetRole s new_user.roleId = some role →
      ¬ new_user.roleId < requester.roleId →
      create_new_user new_user token s freshId = create_user new_user s freshId) ∧
    (∀ e, (create_new_user new_user token s freshId).1 = .error e →
      (create_new_user new_user token s freshId).2 = s) := by
  refine ⟨?_, ?_, ?_, ?_, ?_⟩
  · intro hperm
    simp [create_new_user, hperm]
  · intro requester hperm hreq hrole
    simp [create_new_user, hperm, hreq, hrole]
  · intro requester role hperm hreq hrole hlt
    simp [create_new_user, hperm, hreq, hrole, hlt]
  · intro requester role hperm hreq hrole hge
    simp [create_new_user, hperm, hreq, hrole, hge]
  · intro e h
    unfold create_new_user at h ⊢
    split
    · rfl
    · split
      · rfl
      · split
        · rfl
        · split
          · rfl
          · refine create_user_error_store_unchanged _ _ _ e ?_
            simp_all

/-- Witness for C5: against the fixtures, a requester without the
`users:create` permission is rejected with 403 and the store is
unchanged. -/
theorem create_route_checks_witness :
    verify_user_permission "users:create" storeEx ⟨"u2"⟩ = false ∧
    create_new_user ⟨"carly", "Str0ngPass1", 4⟩ ⟨"u2"⟩ storeEx "u9" =
      (.error ⟨403, "You do not have permission to create a user."⟩, storeEx) :=
  ⟨by decide,
    (create_route_checks_in_order_with_no_partial_mutation
      ⟨"carly", "Str0ngPass1", 4⟩ ⟨"u2"⟩ storeEx "u9").1 (by decide)⟩

/-- C3 counterexample: the claim "if the requested role id is equal to or
higher than the requester's role id (and the role exists), the operation
succeeds" fails on the code.  Against the fixtures, the requester holds
`users:create`, the requested role 4 exists and is not below the
requester's rank 2, yet the create route fails with 409 Conflict because
the requested username is already taken — no user is created. -/
theorem create_equal_or_higher_role_may_still_conflict :
    verify_user_permission "users:create" storeEx tokenAlice = true ∧
    sessionGetUser storeEx tokenAlice.id = some userAlice ∧
    (sessionGetRole storeEx 4).isSome = true ∧
    ¬ (4 < userAlice.roleId) ∧
    create_new_user ⟨"bobby", "Str0ngPass1", 4⟩ tokenAlice storeEx "u9" =
      (.error ⟨409, "Username already exists"⟩, storeEx) :=
  ⟨by decide, by decide, by decide, by decide, rfl⟩

/-- C3 (amended): for a requester holding `users:create`, both the create
and the invite route fail with 403 Forbidden — creating nothing — when
the requested role id is numerically lower (more privileged) than the
requester's own role id; and when the requested role id is equal or
higher, the role exists, and the payload passes creation validation (the
username is unused and well-formed and the password well-formed), the
operation succeeds and appends exactly the requested user. -/
theorem role_rank_gates_user_creation
    (s : Store) (token : DecodedJWTToken) (requester : User) (role : Role)
    (nu : NewUserRequest) (inv : UserInvite) (genpass freshId : String)
    (hperm : verify_user_permission "users:create" s token = true)
    (hreq : sessionGetUser s token.id = some requester) :
    (sessionGetRole s nu.roleId = some role → nu.roleId < requester.roleId →
      create_new_user nu token s freshId =
        (.error ⟨403, "You do not have permission to create a user with this role."⟩, s)) ∧
    (sessionGetRole s inv.roleId = some role → inv.roleId < requester.roleId →
      invite_user inv token s genpass freshId =
        (.error ⟨403, "You do not have permission to invite a user with this role."⟩, s)) ∧
    (sessionGetRole s nu.roleId = some role → ¬ nu.roleId < requester.roleId →
      findUserByUsername s nu.username = none →
      validate_username nu.username = true →
      validate_password nu.password = true →
      ∃ created : User,
        create_new_user nu token s freshId = (.ok created, storeInsertUser s created) ∧
        created.username = nu.username ∧ created.roleId = nu.roleId) ∧
    (sessionGetRole s inv.roleId = some role → ¬ inv.roleId < requester.roleId →
      findUserByUsername s inv.username = none →
      validate_username inv.username = true →
      validate_password genpass = true →
      ∃ created : User,
        invite_user inv token s genpass freshId = (.ok created, storeInsertUser s created) ∧
        created.username = inv.username ∧ created.roleId = inv.roleId) := by
  refine ⟨?_, ?_, ?_, ?_⟩
  · intro hrole hlt
    simp [create_new_user, hperm, hreq, hrole, hlt]
  · intro hrole hlt
    simp [invite_user, hperm, hreq, hrole, hlt]
  · intro hrole hge hfresh hvu hvp
    refine ⟨createdUserRow nu freshId, ?_, rfl, rfl⟩
    simp [create_new_user, hperm, hreq, hrole, hge, create_user,
      createdUserRow, hfresh, hvu, hvp]
  · intro hrole hge hfresh hvu hvp
    refine ⟨createdUserRow ⟨inv.username, genpass, inv.roleId⟩ freshId,
      ?_, rfl, rfl⟩
    simp [invite_user, hperm, hreq, hrole, hge, create_user,
      createdUserRow, hfresh, hvu, hvp]

/-- Witness for C3 (amended) on the fixtures: requesting the more
privileged role 1 is rejected with 403 and no user is created, while
requesting the equal-or-higher role 4 with a fresh valid payload
succeeds. -/
theorem role_rank_gates_user_creation_witness :
    create_new_user ⟨"carly", "Str0ngPass1", 1⟩ tokenAlice storeEx "u9" =
      (.error ⟨403, "You do not have permission to create a user with this role."⟩, storeEx) ∧
    ∃ created : User,
      create_new_user ⟨"carly", "Str0ngPass1", 4⟩ tokenAlice storeEx "u9" =
        (.ok created, storeInsertUser storeEx created) ∧
      created.username = "carly" ∧ created.roleId = 4 :=
  ⟨(role_rank_gates_user_creation storeEx tokenAlice userAlice
      roleSuperintendent ⟨"carly", "Str0ngPass1", 1⟩ ⟨"xavi", "x@e.co", 1⟩
      "Gen0passXy" "u9" (by decide) (by decide)).1 (by decide) (by decide),
   (role_rank_gates_user_creation storeEx tokenAlice userAlice
      roleCanteenManager ⟨"carly", "Str0ngPass1", 4⟩ ⟨"xavi", "x@e.co", 4⟩
      "Gen0passXy" "u9" (by decide) (by decide)).2.2.1 (by decide) (by decide)
      (by decide) (by decide) (by decide)⟩

/-- A provider behaviour in which every HTTP call times out. -/
def timeoutWorld : HttpWorld := fun _ => .timeout

/-- A provider behaviour in which every HTTP call returns status 503 with
a JSON error body. -/
def errorBodyWorld : HttpWorld := fun _ =>
  .response 503 (some [("error", "server_error")])

/-- C7 counterexample: the claim that a provider timeout or non-2xx
response yields a generic provider-unavailable failure and never
propagates an exception fails on the code.  Under a timing-out provider
the exchange result is the uncaught `httpx` timeout exception propagating
to the caller (`Except.error PyException.httpxTimeout`), for both the
Google and the Facebook adapter; and under a provider answering 503 with
a JSON error body the exchange does not fail at all — it returns the
error body as if it were a profile, because the status code is never
inspected. -/
theorem oauth_exchange_not_shielded_counterexample :
    GoogleOAuthAdapter.exchange_code_for_token timeoutWorld
      ⟨"cid", "secret", "uri"⟩ "authcode" = .error .httpxTimeout ∧
    FacebookOAuthAdapter.exchange_code_for_token timeoutWorld
      ⟨"cid", "secret", "uri"⟩ "authcode" = .error .httpxTimeout ∧
    GoogleOAuthAdapter.exchange_code_for_token errorBodyWorld
      ⟨"cid", "secret", "uri"⟩ "authcode" = .ok [("error", "server_error")] :=
  ⟨rfl, rfl, rfl⟩

/-- Reassign every response status produced by a provider behaviour,
leaving timeouts and bodies untouched. -/
def setStatus (w : HttpWorld) (n : Nat) : HttpWorld := fun r =>
  match w r with
  | .timeout => .timeout
  | .response _ b => .response n b

/-- C7 (amended): the exchange is unguarded — a timeout of the provider
token call propagates as an exception to the caller (there is no
`try`/`except` and no provider-unavailable mapping), and the HTTP status
code is never inspected: the exchange result is invariant under
arbitrarily reassigning every response status, so a non-2xx response is
processed exactly like a 2xx one. -/
theorem oauth_exchange_propagates_timeout_and_ignores_status
    (w : HttpWorld) (config : OAuthAdapterConfig) (code : String) (n : Nat) :
    (w (googleTokenRequest config code) = .timeout →
      GoogleOAuthAdapter.exchange_code_for_token w config code =
        .error .httpxTimeout) ∧
    (w (facebookTokenRequest config code) = .timeout →
      FacebookOAuthAdapter.exchange_code_for_token w config code =
        .error .httpxTimeout) ∧
    GoogleOAuthAdapter.exchange_code_for_token (setStatus w n) config code =
      GoogleOAuthAdapter.exchange_code_for_token w config code ∧
    FacebookOAuthAdapter.exchange_code_for_token (setStatus w n) config code =
      FacebookOAuthAdapter.exchange_code_for_token w config code := by
  refine ⟨?_, ?_, ?_, ?_⟩
  · intro h
    simp [GoogleOAuthAdapter.exchange_code_for_token, h]
  · intro h
    simp [FacebookOAuthAdapter.exchange_code_for_token, h]
  · simp only [GoogleOAuthAdapter.exchange_code_for_token, setStatus]
    cases w (googleTokenRequest config code) with
    | timeout => rfl
    | response st body =>
      cases body with
      | none => rfl
      | some b =>
        dsimp only
        cases w (googleUserinfoRequest (jsonGet b "access_token")) with
        | timeout => rfl
        | response st2 body2 => cases body2 <;> rfl
  · simp only [FacebookOAuthAdapter.exchange_code_for_token, setStatus]
    cases w (facebookTokenRequest config code) with
    | timeout => rfl
    | response st body =>
      cases body with
      | none => rfl
      | some b =>
        dsimp only
        cases w (facebookProfileRequest (jsonGet b "access_token")) with
        | timeout => rfl
        | response st2 body2 => cases body2 <;> rfl

/-- Witness for C7 (amended) at the all-timeout provider behaviour with
status reassignment to 200. -/
theorem oauth_exchange_propagates_timeout_witness :
    timeoutWorld (googleTokenRequest ⟨"cid", "secret", "uri"⟩ "authcode") =
      .timeout ∧
    GoogleOAuthAdapter.exchange_code_for_token timeoutWorld
      ⟨"cid", "secret", "uri"⟩ "authcode" = .error .httpxTimeout ∧
    GoogleOAuthAdapter.exchange_code_for_token (setStatus errorBodyWorld 200)
      ⟨"cid", "secret", "uri"⟩ "authcode" =
      GoogleOAuthAdapter.exchange_code_for_token errorBodyWorld
        ⟨"cid", "secret", "uri"⟩ "authcode" :=
  ⟨rfl,
    (oauth_exchange_propagates_timeout_and_ignores_status timeoutWorld
      ⟨"cid", "secret", "uri"⟩ "authcode" 200).1 rfl,
    (oauth_exchange_propagates_timeout_and_ignores_status errorBodyWorld
      ⟨"cid", "secret", "uri"⟩ "authcode" 200).2.2.1⟩

end ProjectSCARS
